import Mathlib

/-!
Verification of the Map Edit Overlay Engine of the `abstreet` editor
(`src/editor/src/edit/mod.rs`): lane-type editing (`next_type`,
`next_valid_type`, `can_change_lane_type`), the stop-sign turn-priority
cycle in `EditMode::event`, and the save/load dialog flow (`save_edits`
and the `Saving`/`Loading` arms of `EditMode::event`).

The surrounding data model (`LaneType`, `TurnPriority`, `Road`, `Lane`
from `map_model`, and the `Wizard` dialog from `ezgui`) lives outside the
source excerpt; those pieces are modelled from the spec, as marked on
each definition.
-/

namespace AbStreet

/-- Modelled from the spec: functional classification of a lane —
Driving, Parking, Biking, Bus, Sidewalk (`map_model::LaneType`, outside
the excerpt). -/
inductive LaneType where
  | Driving
  | Parking
  | Sidewalk
  | Biking
  | Bus
deriving DecidableEq, Repr

/-- Modelled from the spec: right-of-way classification of a turn at a
stop-sign-controlled intersection (`map_model::TurnPriority`, outside the
excerpt): Banned, Stop, Yield, Priority. -/
inductive TurnPriority where
  | Banned
  | Stop
  | Yield
  | Priority
deriving DecidableEq, Repr

/-- Modelled from the spec: a Road is an ordered sequence of lanes in
both directions, each with a `LaneType` (`map_model::Road`, outside the
excerpt). We keep, per side, the list of lane types in position order —
exactly what `Road::get_lane_types` hands to the validator. -/
structure Road where
  lane_types_fwd : List LaneType
  lane_types_back : List LaneType
deriving DecidableEq, Repr

/-- `Road::get_lane_types`: the pair (forward side types, backward side
types), as consumed by `can_change_lane_type`. -/
def Road.get_lane_types (r : Road) : List LaneType × List LaneType :=
  (r.lane_types_fwd, r.lane_types_back)

/-- Modelled from the spec: a Lane has a type, belongs to a side of its
Road (a stored direction flag), and has a fixed position/offset within
that side's lane list (`map_model::Lane`, outside the excerpt). -/
structure Lane where
  lane_type : LaneType
  fwds : Bool
  idx : Nat
deriving DecidableEq, Repr

/-- Modelled from the spec: `Road::dir_and_offset` resolves a lane to
(its direction flag, its position index on that side). The lane carries
both directly in this model. -/
def Road.dir_and_offset (_r : Road) (l : Lane) : Bool × Nat :=
  (l.fwds, l.idx)

/-- `next_type` (src/editor/src/edit/mod.rs:362-371): the fixed candidate
cycle Driving → Parking → Biking → Bus → Driving. The `Sidewalk` arm is
`unreachable!` in the source — every caller guards on non-sidewalk lanes —
and is modelled as the fixed point `Sidewalk`. -/
def next_type : LaneType → LaneType
  | LaneType.Driving => LaneType.Parking
  | LaneType.Parking => LaneType.Biking
  | LaneType.Biking => LaneType.Bus
  | LaneType.Bus => LaneType.Driving
  | LaneType.Sidewalk => LaneType.Sidewalk

/-- `can_change_lane_type` (src/editor/src/edit/mod.rs:373-404): only one
parking lane per side; no two adjacent bike lanes on a side. The source
indexes `types[idx - 1]` under the guard `idx != 0`; we use the optional
lookup, which agrees whenever the lane's index is in range. -/
def can_change_lane_type (r : Road) (l : Lane) (lt : LaneType) : Bool :=
  let d := r.dir_and_offset l
  let fwds := d.1
  let idx := d.2
  let types := if fwds then (r.get_lane_types).1 else (r.get_lane_types).2
  if lt = LaneType.Parking ∧ LaneType.Parking ∈ types then
    false
  else if lt = LaneType.Biking ∧
      ((idx ≠ 0 ∧ types[idx - 1]? = some LaneType.Biking) ∨
        types[idx + 1]? = some LaneType.Biking) then
    false
  else
    true

/-- The loop body of `next_valid_type` (src/editor/src/edit/mod.rs:351-360),
with explicit fuel. On the four non-sidewalk types `next_type` is a
4-cycle, so the source's `while new_type != l.lane_type` walk examines at
most the three successors of the lane's type before the cycle closes; fuel
4 therefore reproduces the loop exactly (see `next_valid_type_eq_find`). -/
def next_valid_type_loop (r : Road) (l : Lane) : Nat → LaneType → Option LaneType
  | 0, _ => none
  | fuel + 1, new_type =>
    if new_type = l.lane_type then none
    else if can_change_lane_type r l new_type then some new_type
    else next_valid_type_loop r l fuel (next_type new_type)

/-- `next_valid_type` (src/editor/src/edit/mod.rs:351-360): starting from
the successor of the lane's current type, return the first candidate along
the cycle that `can_change_lane_type` accepts; `none` once the scan closes
the cycle back at the lane's own type. -/
def next_valid_type (r : Road) (l : Lane) : Option LaneType :=
  next_valid_type_loop r l 4 (next_type l.lane_type)

/-- The stop-sign turn-priority transition extracted from the
`EditingStopSign` arm of `EditMode::event`
(src/editor/src/edit/mod.rs:161-174). `could` is the outcome of
`sign.could_be_priority_turn(t, map)` at the time of the transition. -/
def next_priority (current : TurnPriority) (could : Bool) : TurnPriority :=
  match current with
  | TurnPriority.Banned => TurnPriority.Stop
  | TurnPriority.Stop => TurnPriority.Yield
  | TurnPriority.Yield =>
    if could then TurnPriority.Priority else TurnPriority.Banned
  | TurnPriority.Priority => TurnPriority.Banned

/-- The trajectory of repeatedly toggling one turn's priority:
`run f p n` is the priority after `n` toggles starting from `p`, where
`f k` is the outcome of `could_be_priority_turn` at toggle `k`. -/
def run (f : Nat → Bool) (p : TurnPriority) : Nat → TurnPriority
  | 0 => p
  | n + 1 => next_priority (run f p n) (f n)

/-- The three candidates `next_valid_type` scans before the cycle closes,
starting from the successor of the lane's current type. This definition
follows the spec's words ("scan along the fixed cycle, stopping when back
at the original type") and is compared against the source's loop. -/
def cycle_candidates (lt : LaneType) : List LaneType :=
  [next_type lt, next_type (next_type lt), next_type (next_type (next_type lt))]

/-- Parking-uniqueness invariant for one side of a road: at most one
Parking lane. -/
def parking_ok (types : List LaneType) : Prop :=
  types.count LaneType.Parking ≤ 1

instance (types : List LaneType) : Decidable (parking_ok types) :=
  inferInstanceAs (Decidable (_ ≤ _))

/-- Biking-adjacency invariant for one side of a road: no two lanes
adjacent by position index are both Biking. -/
def no_adj_biking (types : List LaneType) : Prop :=
  ∀ i < types.length,
    ¬(types[i]? = some LaneType.Biking ∧
      types[i + 1]? = some LaneType.Biking)

instance (types : List LaneType) : Decidable (no_adj_biking types) :=
  inferInstanceAs (Decidable (∀ _ < _, _))

/-- A lane edit request, identifying a lane by its side and position and
asking for a new type — the shape of the `lane_overrides` entry the
`ViewingDiffs` arm of `EditMode::event` inserts. -/
structure LaneEdit where
  fwds : Bool
  idx : Nat
  new_type : LaneType
deriving DecidableEq, Repr

/-- Apply one validated lane edit: resolve the lane at the given position
and retype it only when `can_change_lane_type` accepts the requested type
(the UI only ever commits validator-accepted retypes); otherwise the road
is unchanged. -/
def edit_lane (r : Road) (e : LaneEdit) : Road :=
  let types := if e.fwds then r.lane_types_fwd else r.lane_types_back
  match types[e.idx]? with
  | none => r
  | some cur =>
    if can_change_lane_type r ⟨cur, e.fwds, e.idx⟩ e.new_type then
      if e.fwds then
        { r with lane_types_fwd := r.lane_types_fwd.set e.idx e.new_type }
      else
        { r with lane_types_back := r.lane_types_back.set e.idx e.new_type }
    else r

/-- A sequence of validated lane edits, applied in order. -/
def apply_edits (r : Road) (es : List LaneEdit) : Road :=
  es.foldl edit_lane r

/-- The lane-edit path of the `ViewingDiffs` arm of `EditMode::event`
(src/editor/src/edit/mod.rs:63-91): with a lane selected, skip it when its
type is Sidewalk, otherwise retype it to `next_valid_type` when one
exists. The selection is identified by side and position. -/
def edit_lane_ui (r : Road) (fwds : Bool) (idx : Nat) : Road :=
  let types := if fwds then r.lane_types_fwd else r.lane_types_back
  match types[idx]? with
  | none => r
  | some cur =>
    if cur = LaneType.Sidewalk then r
    else
      match next_valid_type r ⟨cur, fwds, idx⟩ with
      | none => r
      | some nt =>
        if fwds then
          { r with lane_types_fwd := r.lane_types_fwd.set idx nt }
        else
          { r with lane_types_back := r.lane_types_back.set idx nt }

/-- A sequence of lane-edit interactions, each selecting a side and a
position. -/
def apply_ui_edits (r : Road) (es : List (Bool × Nat)) : Road :=
  es.foldl (fun r e => edit_lane_ui r e.1 e.2) r

/-- Modelled from the spec: the Overlay Store record ("edits") — a named
record of lane-type, stop-sign and traffic-signal overrides
(`map_model::MapEdits`, outside the excerpt). Stop-sign controls are
per-turn priority maps; traffic-signal payloads are abstracted to an
identifier, since no claim inspects them. -/
structure MapEdits where
  edits_name : String
  lane_overrides : List (Nat × LaneType)
  stop_sign_overrides : List (Nat × List (Nat × TurnPriority))
  traffic_signal_overrides : List (Nat × Nat)
deriving DecidableEq, Repr

/-- Modelled from the spec: the `ezgui::Wizard` dialog (outside the
excerpt), as the oracle of its pending queries. `input_string` and
`choose_string` are the responses `save_edits` can observe; `load_response`
is what `plugins::load_edits` (also outside the excerpt) returns — the
chosen overlay record, or `none` while the dialog is incomplete or was
aborted. `aborted` models `Wizard::aborted()`; an aborted wizard answers
`none` to every pending query. -/
structure Wizard where
  input_string : Option String
  choose_string : Option String
  load_response : Option MapEdits
  aborted : Bool
deriving DecidableEq, Repr

/-- The observable outcome of `save_edits`: the map's edits after the
call, the record written to durable storage (if any), and the function's
return value — `none` models the early exit of the `?` operator while the
dialog is incomplete or aborted. -/
structure SaveOutcome where
  edits : MapEdits
  file_written : Option MapEdits
  result : Option Unit
deriving DecidableEq, Repr

/-- `save_edits` (src/editor/src/edit/mod.rs:324-347): when the overlay is
still named "no_edits", first require a new name from the user; after the
"Overwrite edits?" confirmation, apply the rename (if any) to the overlay
and only then persist it. -/
def save_edits (w : Wizard) (edits : MapEdits) : SaveOutcome :=
  let rename? : Option (Option String) :=
    if edits.edits_name = "no_edits" then w.input_string.map some
    else some none
  match rename? with
  | none => ⟨edits, none, none⟩
  | some rename =>
    match w.choose_string with
    | none => ⟨edits, none, none⟩
    | some choice =>
      if choice = "save edits" then
        let edits2 :=
          match rename with
          | some name => { edits with edits_name := name }
          | none => edits
        ⟨edits2, some edits2, some ()⟩
      else ⟨edits, none, some ()⟩

/-- The editor's mode (`EditMode`, src/editor/src/edit/mod.rs:12-18); the
traffic-signal sub-editor is abstracted to the intersection it was opened
for. -/
inductive EditMode where
  | ViewingDiffs
  | Saving (w : Wizard)
  | Loading (w : Wizard)
  | EditingStopSign (i : Nat)
  | EditingTrafficSignal (i : Nat)
deriving DecidableEq, Repr

/-- The editor-relevant state: the current mode and the map's current
edits (the Overlay Store). -/
structure EditorState where
  mode : EditMode
  edits : MapEdits
deriving DecidableEq, Repr

/-- The `Saving` arm of `EditMode::event`
(src/editor/src/edit/mod.rs:117-127): run `save_edits`; when it completes
(`is_some`) or the wizard was aborted, return to `ViewingDiffs`. -/
def event_saving (s : EditorState) (w : Wizard) : EditorState :=
  let o := save_edits w s.edits
  if o.result.isSome || w.aborted then ⟨EditMode.ViewingDiffs, o.edits⟩
  else ⟨EditMode.Saving w, o.edits⟩

/-- The `Loading` arm of `EditMode::event`
(src/editor/src/edit/mod.rs:128-151): when `load_edits` yields a record,
apply it and return to `ViewingDiffs`; when the wizard was aborted, return
to `ViewingDiffs` with the store untouched. -/
def event_loading (s : EditorState) (w : Wizard) : EditorState :=
  match w.load_response with
  | some new_edits => ⟨EditMode.ViewingDiffs, new_edits⟩
  | none =>
    if w.aborted then ⟨EditMode.ViewingDiffs, s.edits⟩
    else ⟨EditMode.Loading w, s.edits⟩

lemma next_priority_eq_priority {p : TurnPriority} {b : Bool}
    (h : next_priority p b = TurnPriority.Priority) :
    p = TurnPriority.Yield ∧ b = true := by
  cases p <;> cases b <;> simp_all [next_priority]

lemma next_type_ne_sidewalk {t : LaneType} (h : t ≠ LaneType.Sidewalk) :
    next_type t ≠ LaneType.Sidewalk := by
  cases t <;> simp_all [next_type]

/-- Along the candidate cycle, a successful scan never returns the lane's
own type: the loop exits with `none` as soon as the cycle closes. -/
lemma next_valid_type_loop_some_ne {r : Road} {l : Lane} {nt : LaneType} :
    ∀ {fuel : Nat} {t : LaneType},
      next_valid_type_loop r l fuel t = some nt → nt ≠ l.lane_type := by
  intro fuel
  induction fuel with
  | zero => intro t h; simp [next_valid_type_loop] at h
  | succ n ih =>
    intro t h
    rw [next_valid_type_loop] at h
    by_cases ht : t = l.lane_type
    · simp [ht] at h
    · simp only [if_neg ht] at h
      by_cases hc : can_change_lane_type r l t
      · simp only [if_pos hc] at h
        cases h
        exact ht
      · simp only [if_neg hc] at h
        exact ih h

/-- A successful scan started at a non-sidewalk type never returns
Sidewalk: `next_type` maps the four candidate types among themselves. -/
lemma next_valid_type_loop_some_ne_sidewalk {r : Road} {l : Lane}
    {nt : LaneType} :
    ∀ {fuel : Nat} {t : LaneType}, t ≠ LaneType.Sidewalk →
      next_valid_type_loop r l fuel t = some nt → nt ≠ LaneType.Sidewalk := by
  intro fuel
  induction fuel with
  | zero => intro t _ h; simp [next_valid_type_loop] at h
  | succ n ih =>
    intro t hts h
    rw [next_valid_type_loop] at h
    by_cases ht : t = l.lane_type
    · simp [ht] at h
    · simp only [if_neg ht] at h
      by_cases hc : can_change_lane_type r l t
      · simp only [if_pos hc] at h
        cases h
        exact hts
      · simp only [if_neg hc] at h
        exact ih (next_type_ne_sidewalk hts) h

/-- Unfolding one loop step when the cycle has not closed yet. -/
lemma next_valid_type_loop_step {r : Road} {l : Lane} {fuel : Nat}
    {t : LaneType} (hne : t ≠ l.lane_type) :
    next_valid_type_loop r l (fuel + 1) t =
      if can_change_lane_type r l t then some t
      else next_valid_type_loop r l fuel (next_type t) := by
  rw [next_valid_type_loop, if_neg hne]

/-- Unfolding the whole fuel-4 scan against a first-match search, given
that the candidate cycle closes exactly after 4 steps. -/
lemma loop4_eq_find {r : Road} {l : Lane}
    (h1 : next_type l.lane_type ≠ l.lane_type)
    (h2 : next_type (next_type l.lane_type) ≠ l.lane_type)
    (h3 : next_type (next_type (next_type l.lane_type)) ≠ l.lane_type)
    (h4 : next_type (next_type (next_type (next_type l.lane_type)))
        = l.lane_type) :
    next_valid_type r l =
      (cycle_candidates l.lane_type).find?
        (fun t => can_change_lane_type r l t) := by
  unfold next_valid_type cycle_candidates
  rw [next_valid_type_loop_step h1]
  by_cases c1 : can_change_lane_type r l (next_type l.lane_type) = true
  · rw [if_pos c1, List.find?_cons_of_pos _ c1]
  · rw [if_neg c1, List.find?_cons_of_neg _ (Bool.not_eq_true _ ▸ c1),
      next_valid_type_loop_step h2]
    by_cases c2 :
        can_change_lane_type r l (next_type (next_type l.lane_type)) = true
    · rw [if_pos c2, List.find?_cons_of_pos _ c2]
    · rw [if_neg c2, List.find?_cons_of_neg _ (Bool.not_eq_true _ ▸ c2),
        next_valid_type_loop_step h3]
      by_cases c3 :
          can_change_lane_type r l
            (next_type (next_type (next_type l.lane_type))) = true
      · rw [if_pos c3, List.find?_cons_of_pos _ c3]
      · rw [if_neg c3, List.find?_cons_of_neg _ (Bool.not_eq_true _ ▸ c3), h4]
        simp [next_valid_type_loop]

/-- The source's fuelled scan agrees with a first-match search over the
three cycle candidates, for every non-sidewalk lane. -/
lemma next_valid_type_eq_find {r : Road} {l : Lane}
    (h : l.lane_type ≠ LaneType.Sidewalk) :
    next_valid_type r l =
      (cycle_candidates l.lane_type).find?
        (fun t => can_change_lane_type r l t) := by
  rcases l with ⟨lt, fwds, idx⟩
  cases lt with
  | Sidewalk => exact absurd rfl h
  | Driving =>
    exact loop4_eq_find
      (show LaneType.Parking ≠ LaneType.Driving by decide)
      (show LaneType.Biking ≠ LaneType.Driving by decide)
      (show LaneType.Bus ≠ LaneType.Driving by decide) rfl
  | Parking =>
    exact loop4_eq_find
      (show LaneType.Biking ≠ LaneType.Parking by decide)
      (show LaneType.Bus ≠ LaneType.Parking by decide)
      (show LaneType.Driving ≠ LaneType.Parking by decide) rfl
  | Biking =>
    exact loop4_eq_find
      (show LaneType.Bus ≠ LaneType.Biking by decide)
      (show LaneType.Driving ≠ LaneType.Biking by decide)
      (show LaneType.Parking ≠ LaneType.Biking by decide) rfl
  | Bus =>
    exact loop4_eq_find
      (show LaneType.Driving ≠ LaneType.Bus by decide)
      (show LaneType.Parking ≠ LaneType.Bus by decide)
      (show LaneType.Biking ≠ LaneType.Bus by decide) rfl

/-- The Bus candidate is subject to no constraint check. -/
lemma can_change_bus (r : Road) (l : Lane) :
    can_change_lane_type r l LaneType.Bus = true := by
  simp [can_change_lane_type]

/-- The Driving candidate is subject to no constraint check. -/
lemma can_change_driving (r : Road) (l : Lane) :
    can_change_lane_type r l LaneType.Driving = true := by
  simp [can_change_lane_type]

/-- C2: for every non-sidewalk lane, `next_valid_type` is the first-match
scan of the three successors of the lane's type along the fixed cycle
Driving → Parking → Biking → Bus → Driving, and it returns `none` exactly
when every candidate the scan sees before closing the cycle fails
`can_change_lane_type`. -/
theorem next_valid_type_scans_cycle (r : Road) (l : Lane)
    (h : l.lane_type ≠ LaneType.Sidewalk) :
    next_valid_type r l =
      (cycle_candidates l.lane_type).find?
        (fun t => can_change_lane_type r l t) ∧
    (next_valid_type r l = none ↔
      ∀ t ∈ cycle_candidates l.lane_type,
        can_change_lane_type r l t = false) := by
  refine ⟨next_valid_type_eq_find h, ?_⟩
  rw [next_valid_type_eq_find h, List.find?_eq_none]
  simp [Bool.not_eq_true]

/-- Witness for C2 at a concrete road and lane. -/
theorem next_valid_type_scans_cycle_witness :
    next_valid_type
        ⟨[LaneType.Driving, LaneType.Parking, LaneType.Sidewalk], []⟩
        ⟨LaneType.Driving, true, 0⟩ =
      (cycle_candidates LaneType.Driving).find?
        (fun t =>
          can_change_lane_type
            ⟨[LaneType.Driving, LaneType.Parking, LaneType.Sidewalk], []⟩
            ⟨LaneType.Driving, true, 0⟩ t) :=
  (next_valid_type_scans_cycle
    ⟨[LaneType.Driving, LaneType.Parking, LaneType.Sidewalk], []⟩
    ⟨LaneType.Driving, true, 0⟩ (by decide)).1

/-- C10: for every lane whose type is Driving, Parking, Biking or Bus,
`next_valid_type` always succeeds with a type different from the lane's
current one — the `none` outcome is unreachable, because the Bus and
Driving candidates pass every constraint check. -/
theorem next_valid_type_total (r : Road) (l : Lane)
    (h : l.lane_type ≠ LaneType.Sidewalk) :
    ∃ nt, next_valid_type r l = some nt ∧ nt ≠ l.lane_type := by
  rcases hn : next_valid_type r l with _ | nt
  · exfalso
    rw [next_valid_type_eq_find h, List.find?_eq_none] at hn
    by_cases hb : l.lane_type = LaneType.Bus
    · exact hn LaneType.Driving (by rw [hb]; decide) (can_change_driving r l)
    · refine hn LaneType.Bus ?_ (can_change_bus r l)
      rcases l with ⟨lt, fwds, idx⟩
      cases lt <;> simp_all [cycle_candidates, next_type]
  · refine ⟨nt, rfl, ?_⟩
    unfold next_valid_type at hn
    exact next_valid_type_loop_some_ne hn

/-- Witness for C10 at a concrete road and lane. -/
theorem next_valid_type_total_witness :
    (next_valid_type ⟨[LaneType.Parking, LaneType.Sidewalk], []⟩
        ⟨LaneType.Parking, true, 0⟩).isSome = true := by
  obtain ⟨nt, hnt, -⟩ :=
    next_valid_type_total ⟨[LaneType.Parking, LaneType.Sidewalk], []⟩
      ⟨LaneType.Parking, true, 0⟩ (by decide)
  rw [hnt]
  rfl

/-- Setting one entry of a list raises the multiplicity of any value by at
most one. -/
lemma count_set_le_add_one (l : List LaneType) (i : Nat) (a b : LaneType) :
    (l.set i a).count b ≤ l.count b + 1 := by
  induction l generalizing i with
  | nil => simp
  | cons x xs ih =>
    cases i with
    | zero =>
      simp only [List.set_cons_zero, List.count_cons]
      split_ifs <;> omega
    | succ n =>
      simp only [List.set_cons_succ, List.count_cons]
      have := ih n
      split_ifs <;> omega

/-- Setting an entry to a value other than `b` never raises the
multiplicity of `b`. -/
lemma count_set_le_of_ne (l : List LaneType) (i : Nat) {a b : LaneType}
    (hab : a ≠ b) : (l.set i a).count b ≤ l.count b := by
  induction l generalizing i with
  | nil => simp
  | cons x xs ih =>
    cases i with
    | zero =>
      simp only [List.set_cons_zero, List.count_cons]
      split_ifs with h1 h2 <;> simp_all
    | succ n =>
      simp only [List.set_cons_succ, List.count_cons]
      have := ih n
      split_ifs <;> omega

/-- If the validator accepts a Parking candidate for a lane, the lane's
side holds no Parking lane at all. -/
lemma can_change_parking_not_mem {r : Road} {l : Lane}
    (h : can_change_lane_type r l LaneType.Parking = true) :
    LaneType.Parking ∉
      (if l.fwds then r.lane_types_fwd else r.lane_types_back) := by
  intro hmem
  rcases l with ⟨lt, fwds, idx⟩
  cases fwds <;>
    simp_all [can_change_lane_type, Road.dir_and_offset, Road.get_lane_types]

/-- If the validator accepts a Biking candidate for a lane, neither
neighbour on the lane's side is Biking. -/
lemma can_change_biking_not_adjacent {r : Road} {l : Lane}
    (h : can_change_lane_type r l LaneType.Biking = true) :
    ¬((l.idx ≠ 0 ∧
        (if l.fwds then r.lane_types_fwd else
          r.lane_types_back)[l.idx - 1]? = some LaneType.Biking) ∨
      (if l.fwds then r.lane_types_fwd else
        r.lane_types_back)[l.idx + 1]? = some LaneType.Biking) := by
  intro hcon
  rcases l with ⟨lt, fwds, idx⟩
  cases fwds <;>
    simp_all [can_change_lane_type, Road.dir_and_offset, Road.get_lane_types]

/-- Parking-uniqueness survives one accepted retype of one side's list. -/
lemma parking_ok_set {types : List LaneType} {idx : Nat} {nt : LaneType}
    (hok : parking_ok types)
    (hmem : nt = LaneType.Parking → LaneType.Parking ∉ types) :
    parking_ok (types.set idx nt) := by
  by_cases hp : nt = LaneType.Parking
  · have h0 : types.count LaneType.Parking = 0 :=
      List.count_eq_zero.mpr (hmem hp)
    have := count_set_le_add_one types idx nt LaneType.Parking
    unfold parking_ok
    omega
  · have := count_set_le_of_ne types idx (a := nt) (b := LaneType.Parking) hp
    unfold parking_ok at hok ⊢
    omega

/-- One validated edit preserves parking-uniqueness on both sides. -/
lemma edit_lane_parking_ok {r : Road} (e : LaneEdit)
    (hf : parking_ok r.lane_types_fwd) (hb : parking_ok r.lane_types_back) :
    parking_ok (edit_lane r e).lane_types_fwd ∧
      parking_ok (edit_lane r e).lane_types_back := by
  rcases e with ⟨fwds, idx, nt⟩
  cases fwds
  · cases hget : r.lane_types_back[idx]? with
    | none => simp only [edit_lane, Bool.false_eq_true, if_false, hget]
              exact ⟨hf, hb⟩
    | some cur =>
      by_cases hc : can_change_lane_type r ⟨cur, false, idx⟩ nt = true
      · have hnot := can_change_parking_not_mem (r := r) (l := ⟨cur, false, idx⟩)
        simp only [Bool.false_eq_true, if_false] at hnot
        simp only [edit_lane, Bool.false_eq_true, if_false, hget, hc, if_true]
        exact ⟨hf, parking_ok_set hb (fun hp => hnot (hp ▸ hc))⟩
      · simp only [edit_lane, Bool.false_eq_true, if_false, hget, hc]
        exact ⟨hf, hb⟩
  · cases hget : r.lane_types_fwd[idx]? with
    | none => simp only [edit_lane, if_true, hget]
              exact ⟨hf, hb⟩
    | some cur =>
      by_cases hc : can_change_lane_type r ⟨cur, true, idx⟩ nt = true
      · have hnot := can_change_parking_not_mem (r := r) (l := ⟨cur, true, idx⟩)
        simp only [if_true] at hnot
        simp only [edit_lane, if_true, hget, hc]
        exact ⟨parking_ok_set hf (fun hp => hnot (hp ▸ hc)), hb⟩
      · simp only [edit_lane, if_true, hget, hc]
        exact ⟨hf, hb⟩

/-- Every sequence of validated edits preserves parking-uniqueness on both
sides. -/
lemma apply_edits_parking_ok {r : Road} {es : List LaneEdit}
    (hf : parking_ok r.lane_types_fwd) (hb : parking_ok r.lane_types_back) :
    parking_ok (apply_edits r es).lane_types_fwd ∧
      parking_ok (apply_edits r es).lane_types_back := by
  induction es generalizing r with
  | nil => exact ⟨hf, hb⟩
  | cons e es ih =>
    have h := edit_lane_parking_ok e hf hb
    exact ih h.1 h.2

/-- C3: if each side of a road has at most one Parking lane, then after a
single validated lane edit, and after any sequence of validated lane
edits, each side still has at most one Parking lane. -/
theorem validated_edits_parking_unique (r : Road) (e : LaneEdit)
    (es : List LaneEdit)
    (hf : parking_ok r.lane_types_fwd) (hb : parking_ok r.lane_types_back) :
    (parking_ok (edit_lane r e).lane_types_fwd ∧
      parking_ok (edit_lane r e).lane_types_back) ∧
    (parking_ok (apply_edits r es).lane_types_fwd ∧
      parking_ok (apply_edits r es).lane_types_back) :=
  ⟨edit_lane_parking_ok e hf hb, apply_edits_parking_ok hf hb⟩

/-- Witness for C3 at a concrete road and edit sequence. -/
theorem validated_edits_parking_unique_witness :
    (parking_ok
        (edit_lane ⟨[LaneType.Driving, LaneType.Sidewalk], []⟩
          ⟨true, 0, LaneType.Parking⟩).lane_types_fwd ∧
      parking_ok
        (edit_lane ⟨[LaneType.Driving, LaneType.Sidewalk], []⟩
          ⟨true, 0, LaneType.Parking⟩).lane_types_back) ∧
    (parking_ok
        (apply_edits ⟨[LaneType.Driving, LaneType.Sidewalk], []⟩
          [⟨true, 0, LaneType.Parking⟩,
            ⟨true, 1, LaneType.Parking⟩]).lane_types_fwd ∧
      parking_ok
        (apply_edits ⟨[LaneType.Driving, LaneType.Sidewalk], []⟩
          [⟨true, 0, LaneType.Parking⟩,
            ⟨true, 1, LaneType.Parking⟩]).lane_types_back) :=
  validated_edits_parking_unique ⟨[LaneType.Driving, LaneType.Sidewalk], []⟩
    ⟨true, 0, LaneType.Parking⟩
    [⟨true, 0, LaneType.Parking⟩, ⟨true, 1, LaneType.Parking⟩]
    (by decide) (by decide)

/-- Biking-adjacency survives one accepted retype of one side's list. -/
lemma no_adj_biking_set {types : List LaneType} {idx : Nat} {nt : LaneType}
    (hok : no_adj_biking types)
    (hadj : nt = LaneType.Biking →
      ¬((idx ≠ 0 ∧ types[idx - 1]? = some LaneType.Biking) ∨
        types[idx + 1]? = some LaneType.Biking)) :
    no_adj_biking (types.set idx nt) := by
  intro i hi h
  obtain ⟨h1, h2⟩ := h
  rw [List.length_set] at hi
  by_cases hlen : idx < types.length
  · by_cases he1 : idx = i
    · subst he1
      rw [List.getElem?_set_eq_of_lt nt hlen] at h1
      have hnt : nt = LaneType.Biking := by injection h1
      rw [List.getElem?_set_ne (by omega)] at h2
      exact hadj hnt (Or.inr h2)
    · by_cases he2 : idx = i + 1
      · subst he2
        rw [List.getElem?_set_eq_of_lt nt hlen] at h2
        have hnt : nt = LaneType.Biking := by injection h2
        rw [List.getElem?_set_ne (by omega)] at h1
        refine hadj hnt (Or.inl ⟨by omega, ?_⟩)
        simpa using h1
      · rw [List.getElem?_set_ne he1] at h1
        rw [List.getElem?_set_ne he2] at h2
        exact hok i hi ⟨h1, h2⟩
  · rw [List.set_eq_of_length_le (by omega)] at h1 h2
    exact hok i hi ⟨h1, h2⟩

/-- One validated edit preserves biking-adjacency on both sides. -/
lemma edit_lane_no_adj_biking {r : Road} (e : LaneEdit)
    (hf : no_adj_biking r.lane_types_fwd)
    (hb : no_adj_biking r.lane_types_back) :
    no_adj_biking (edit_lane r e).lane_types_fwd ∧
      no_adj_biking (edit_lane r e).lane_types_back := by
  rcases e with ⟨fwds, idx, nt⟩
  cases fwds
  · cases hget : r.lane_types_back[idx]? with
    | none => simp only [edit_lane, Bool.false_eq_true, if_false, hget]
              exact ⟨hf, hb⟩
    | some cur =>
      by_cases hc : can_change_lane_type r ⟨cur, false, idx⟩ nt = true
      · have hnot := can_change_biking_not_adjacent (r := r)
          (l := ⟨cur, false, idx⟩)
        simp only [Bool.false_eq_true, if_false] at hnot
        simp only [edit_lane, Bool.false_eq_true, if_false, hget, hc, if_true]
        exact ⟨hf, no_adj_biking_set hb (fun hp => hnot (hp ▸ hc))⟩
      · simp only [edit_lane, Bool.false_eq_true, if_false, hget, hc]
        exact ⟨hf, hb⟩
  · cases hget : r.lane_types_fwd[idx]? with
    | none => simp only [edit_lane, if_true, hget]
              exact ⟨hf, hb⟩
    | some cur =>
      by_cases hc : can_change_lane_type r ⟨cur, true, idx⟩ nt = true
      · have hnot := can_change_biking_not_adjacent (r := r)
          (l := ⟨cur, true, idx⟩)
        simp only [if_true] at hnot
        simp only [edit_lane, if_true, hget, hc]
        exact ⟨no_adj_biking_set hf (fun hp => hnot (hp ▸ hc)), hb⟩
      · simp only [edit_lane, if_true, hget, hc]
        exact ⟨hf, hb⟩

/-- Every sequence of validated edits preserves biking-adjacency on both
sides. -/
lemma apply_edits_no_adj_biking {r : Road} {es : List LaneEdit}
    (hf : no_adj_biking r.lane_types_fwd)
    (hb : no_adj_biking r.lane_types_back) :
    no_adj_biking (apply_edits r es).lane_types_fwd ∧
      no_adj_biking (apply_edits r es).lane_types_back := by
  induction es generalizing r with
  | nil => exact ⟨hf, hb⟩
  | cons e es ih =>
    have h := edit_lane_no_adj_biking e hf hb
    exact ih h.1 h.2

/-- C4: if no two adjacent lanes on a side are both Biking, then after a
single validated lane edit, and after any sequence of validated lane
edits, still no two adjacent lanes on a side are both Biking. -/
theorem validated_edits_no_adjacent_biking (r : Road) (e : LaneEdit)
    (es : List LaneEdit)
    (hf : no_adj_biking r.lane_types_fwd)
    (hb : no_adj_biking r.lane_types_back) :
    (no_adj_biking (edit_lane r e).lane_types_fwd ∧
      no_adj_biking (edit_lane r e).lane_types_back) ∧
    (no_adj_biking (apply_edits r es).lane_types_fwd ∧
      no_adj_biking (apply_edits r es).lane_types_back) :=
  ⟨edit_lane_no_adj_biking e hf hb, apply_edits_no_adj_biking hf hb⟩

/-- Witness for C4 at a concrete road and edit sequence. -/
theorem validated_edits_no_adjacent_biking_witness :
    (no_adj_biking
        (edit_lane ⟨[LaneType.Driving, LaneType.Biking], []⟩
          ⟨true, 0, LaneType.Biking⟩).lane_types_fwd ∧
      no_adj_biking
        (edit_lane ⟨[LaneType.Driving, LaneType.Biking], []⟩
          ⟨true, 0, LaneType.Biking⟩).lane_types_back) ∧
    (no_adj_biking
        (apply_edits ⟨[LaneType.Driving, LaneType.Biking], []⟩
          [⟨true, 0, LaneType.Biking⟩,
            ⟨true, 1, LaneType.Biking⟩]).lane_types_fwd ∧
      no_adj_biking
        (apply_edits ⟨[LaneType.Driving, LaneType.Biking], []⟩
          [⟨true, 0, LaneType.Biking⟩,
            ⟨true, 1, LaneType.Biking⟩]).lane_types_back) :=
  validated_edits_no_adjacent_biking ⟨[LaneType.Driving, LaneType.Biking], []⟩
    ⟨true, 0, LaneType.Biking⟩
    [⟨true, 0, LaneType.Biking⟩, ⟨true, 1, LaneType.Biking⟩]
    (by decide) (by decide)

/-- `next_valid_type` never proposes Sidewalk for a non-sidewalk lane. -/
lemma next_valid_type_some_ne_sidewalk {r : Road} {l : Lane} {nt : LaneType}
    (h : l.lane_type ≠ LaneType.Sidewalk)
    (hs : next_valid_type r l = some nt) : nt ≠ LaneType.Sidewalk := by
  unfold next_valid_type at hs
  exact next_valid_type_loop_some_ne_sidewalk (next_type_ne_sidewalk h) hs

/-- Retyping a non-sidewalk lane to a non-sidewalk type changes no
position's sidewalk-ness. -/
lemma set_preserves_sidewalk {types : List LaneType} {idx : Nat}
    {cur nt : LaneType} (hget : types[idx]? = some cur)
    (hcur : cur ≠ LaneType.Sidewalk) (hnt : nt ≠ LaneType.Sidewalk) (i : Nat) :
    (types.set idx nt)[i]? = some LaneType.Sidewalk ↔
      types[i]? = some LaneType.Sidewalk := by
  by_cases he : idx = i
  · subst he
    have hlt : idx < types.length := (List.getElem?_eq_some.mp hget).1
    rw [List.getElem?_set_eq_of_lt nt hlt, hget]
    constructor
    · intro h
      exact absurd (by injection h) hnt
    · intro h
      exact absurd (by injection h) hcur
  · rw [List.getElem?_set_ne he]

/-- One lane-edit interaction changes no position's sidewalk-ness on
either side. -/
lemma edit_lane_ui_sidewalk (r : Road) (fwds : Bool) (idx i : Nat) :
    ((edit_lane_ui r fwds idx).lane_types_fwd[i]? = some LaneType.Sidewalk ↔
      r.lane_types_fwd[i]? = some LaneType.Sidewalk) ∧
    ((edit_lane_ui r fwds idx).lane_types_back[i]? = some LaneType.Sidewalk ↔
      r.lane_types_back[i]? = some LaneType.Sidewalk) := by
  cases fwds
  · cases hget : r.lane_types_back[idx]? with
    | none => simp [edit_lane_ui, hget]
    | some cur =>
      by_cases hcur : cur = LaneType.Sidewalk
      · simp [edit_lane_ui, hget, hcur]
      · cases hnv : next_valid_type r ⟨cur, false, idx⟩ with
        | none => simp [edit_lane_ui, hget, hcur, hnv]
        | some nt =>
          have hnt : nt ≠ LaneType.Sidewalk :=
            next_valid_type_some_ne_sidewalk hcur hnv
          simp only [edit_lane_ui, Bool.false_eq_true, if_false, hget,
            if_neg hcur, hnv]
          exact ⟨trivial, set_preserves_sidewalk hget hcur hnt i⟩
  · cases hget : r.lane_types_fwd[idx]? with
    | none => simp [edit_lane_ui, hget]
    | some cur =>
      by_cases hcur : cur = LaneType.Sidewalk
      · simp [edit_lane_ui, hget, hcur]
      · cases hnv : next_valid_type r ⟨cur, true, idx⟩ with
        | none => simp [edit_lane_ui, hget, hcur, hnv]
        | some nt =>
          have hnt : nt ≠ LaneType.Sidewalk :=
            next_valid_type_some_ne_sidewalk hcur hnv
          simp only [edit_lane_ui, if_true, hget, if_neg hcur, hnv]
          exact ⟨set_preserves_sidewalk hget hcur hnt i, trivial⟩

/-- C6: over any sequence of lane-edit interactions, a position holds a
Sidewalk lane afterwards exactly when it did before — Sidewalk lanes are
never retyped (the edit path skips them), and no lane is ever retyped to
Sidewalk (the candidate cycle never produces it). -/
theorem sidewalk_immutable (r : Road) (es : List (Bool × Nat)) (i : Nat) :
    ((apply_ui_edits r es).lane_types_fwd[i]? = some LaneType.Sidewalk ↔
      r.lane_types_fwd[i]? = some LaneType.Sidewalk) ∧
    ((apply_ui_edits r es).lane_types_back[i]? = some LaneType.Sidewalk ↔
      r.lane_types_back[i]? = some LaneType.Sidewalk) := by
  induction es generalizing r with
  | nil => exact ⟨Iff.rfl, Iff.rfl⟩
  | cons e es ih =>
    have hstep := edit_lane_ui_sidewalk r e.1 e.2 i
    have hrest := ih (edit_lane_ui r e.1 e.2)
    exact ⟨hrest.1.trans hstep.1, hrest.2.trans hstep.2⟩

/-- C8: saving an overlay still named "no_edits" persists only under a
user-supplied new name, applied to the overlay before the write; if the
user supplies no name, nothing is written and nothing is renamed. -/
theorem save_edits_requires_name (w : Wizard) (e : MapEdits)
    (h : e.edits_name = "no_edits") :
    ((save_edits w e).file_written.isSome →
      ∃ n, w.input_string = some n ∧
        (save_edits w e).edits.edits_name = n ∧
        (save_edits w e).file_written = some ((save_edits w e).edits)) ∧
    (w.input_string = none → save_edits w e = ⟨e, none, none⟩) := by
  constructor
  · intro hw
    cases hin : w.input_string with
    | none => simp [save_edits, h, hin] at hw
    | some n =>
      cases hch : w.choose_string with
      | none => simp [save_edits, h, hin, hch] at hw
      | some c =>
        by_cases hcs : c = "save edits"
        · exact ⟨n, rfl, by simp [save_edits, h, hin, hch, hcs]⟩
        · simp [save_edits, h, hin, hch, hcs] at hw
  · intro hin
    simp [save_edits, h, hin]

/-- Witness for C8 at a concrete wizard and overlay. -/
theorem save_edits_requires_name_witness :
    save_edits ⟨none, some "save edits", none, true⟩ ⟨"no_edits", [], [], []⟩
      = ⟨⟨"no_edits", [], [], []⟩, none, none⟩ :=
  (save_edits_requires_name ⟨none, some "save edits", none, true⟩
    ⟨"no_edits", [], [], []⟩ rfl).2 rfl

/-- C9: aborting an open save or load dialog returns the editor to the
diff-viewing state with the Overlay Store — its name and all three
override maps — exactly as before; no partial overlay is committed. An
aborted wizard answers `none` to each of its pending queries. -/
theorem abort_preserves_overlay (s : EditorState) (w : Wizard)
    (ha : w.aborted = true) (h1 : w.input_string = none)
    (h2 : w.choose_string = none) (h3 : w.load_response = none) :
    event_saving s w = ⟨EditMode.ViewingDiffs, s.edits⟩ ∧
    event_loading s w = ⟨EditMode.ViewingDiffs, s.edits⟩ := by
  constructor
  · have hsave : save_edits w s.edits = ⟨s.edits, none, none⟩ := by
      by_cases h : s.edits.edits_name = "no_edits" <;>
        simp [save_edits, h, h1, h2]
    unfold event_saving
    rw [hsave]
    simp [ha]
  · unfold event_loading
    rw [h3]
    simp [ha]

/-- Witness for C9 at a concrete editor state and aborted wizard. -/
theorem abort_preserves_overlay_witness :
    event_saving
        ⟨EditMode.Saving ⟨none, none, none, true⟩, ⟨"no_edits", [], [], []⟩⟩
        ⟨none, none, none, true⟩
      = ⟨EditMode.ViewingDiffs, ⟨"no_edits", [], [], []⟩⟩ ∧
    event_loading
        ⟨EditMode.Saving ⟨none, none, none, true⟩, ⟨"no_edits", [], [], []⟩⟩
        ⟨none, none, none, true⟩
      = ⟨EditMode.ViewingDiffs, ⟨"no_edits", [], [], []⟩⟩ :=
  abort_preserves_overlay
    ⟨EditMode.Saving ⟨none, none, none, true⟩, ⟨"no_edits", [], [], []⟩⟩
    ⟨none, none, none, true⟩ rfl rfl rfl rfl

/-- C1: the stop-sign 'next priority' transition maps Banned to Stop, Stop
to Yield, Yield to Priority exactly when `could_be_priority_turn` holds and
to Banned otherwise, and Priority to Banned. -/
theorem next_priority_table (could : Bool) :
    next_priority TurnPriority.Banned could = TurnPriority.Stop ∧
    next_priority TurnPriority.Stop could = TurnPriority.Yield ∧
    next_priority TurnPriority.Yield could =
      (if could then TurnPriority.Priority else TurnPriority.Banned) ∧
    next_priority TurnPriority.Priority could = TurnPriority.Banned := by
  cases could <;> simp [next_priority]

/-- C5: for every sequence of `could_be_priority_turn` outcomes and every
start state, the toggle trajectory reaches Banned within at most 4 steps,
and it sits at Priority after a step only if the predicate held at that
step. -/
theorem priority_cycle_bounded (f : Nat → Bool) (p : TurnPriority) (n : Nat) :
    (∃ k, 0 < k ∧ k ≤ 4 ∧ run f p k = TurnPriority.Banned) ∧
    (run f p (n + 1) = TurnPriority.Priority → f n = true) := by
  constructor
  · cases p with
    | Banned =>
      by_cases h : f 2 = true
      · exact ⟨4, by norm_num, by norm_num, by simp [run, next_priority, h]⟩
      · simp only [Bool.not_eq_true] at h
        exact ⟨3, by norm_num, by norm_num, by simp [run, next_priority, h]⟩
    | Stop =>
      by_cases h : f 1 = true
      · exact ⟨3, by norm_num, by norm_num, by simp [run, next_priority, h]⟩
      · simp only [Bool.not_eq_true] at h
        exact ⟨2, by norm_num, by norm_num, by simp [run, next_priority, h]⟩
    | Yield =>
      by_cases h : f 0 = true
      · exact ⟨2, by norm_num, by norm_num, by simp [run, next_priority, h]⟩
      · simp only [Bool.not_eq_true] at h
        exact ⟨1, by norm_num, by norm_num, by simp [run, next_priority, h]⟩
    | Priority =>
      exact ⟨1, by norm_num, by norm_num, by simp [run, next_priority]⟩
  · intro h
    simp only [run] at h
    exact (next_priority_eq_priority h).2

/-- Witness for C5: instantiating the Priority-entry conjunct at a
concrete trajectory that steps Banned → Stop → Yield → Priority. -/
theorem priority_cycle_bounded_witness : (fun _ : Nat => true) 2 = true :=
  (priority_cycle_bounded (fun _ => true) TurnPriority.Banned 2).2 (by decide)

/-- C7: on a road whose forward side is [Driving, Parking, Sidewalk], the
Driving lane's next valid type is Biking (Parking is skipped because the
side already has a Parking lane), and after the lane becomes Biking the
next valid type is Bus. -/
theorem scenario_driving_parking_sidewalk :
    next_valid_type
        ⟨[LaneType.Driving, LaneType.Parking, LaneType.Sidewalk], []⟩
        ⟨LaneType.Driving, true, 0⟩ = some LaneType.Biking ∧
    next_valid_type
        ⟨[LaneType.Biking, LaneType.Parking, LaneType.Sidewalk], []⟩
        ⟨LaneType.Biking, true, 0⟩ = some LaneType.Bus := by
  decide

end AbStreet
